import Mathlib

/-!
# Banking microservice: account model, account response and server routing

A shallow embedding of `pkg/domain/account.go` (the `Account` entity, its
constructor `NewAccount` and the projection `ToNewAccountResponseDto`), of the
transaction engine's `Apply` over that `Account`, and of the router wiring in
`banking/cmd/banking-server/main.go`, followed by the properties proved about
them.

Go's `string` is embedded as `String`.  Go's `float64` is embedded as its
IEEE-754 binary64 encoding (sign bit, 11-bit biased exponent, 52-bit
fraction), so that copying a value is copying its bits, and comparison and
addition are computable functions of the encoding.
-/

namespace Banking

/-! ## Go `float64` -/

/-- An IEEE-754 binary64 value, as Go's `float64` stores it: one sign bit,
an 11-bit biased exponent and a 52-bit fraction. -/
structure Float64 where
  sign : Bool
  exponent : Fin 2048
  mantissa : Fin 4503599627370496
  deriving DecidableEq, Repr

namespace Float64

/-- NaN: exponent all ones and a non-zero fraction. -/
def isNaN (f : Float64) : Bool :=
  f.exponent.val == 2047 && f.mantissa.val != 0

/-- Plus or minus infinity: exponent all ones and a zero fraction. -/
def isInf (f : Float64) : Bool :=
  f.exponent.val == 2047 && f.mantissa.val == 0

/-- Plus or minus zero. -/
def isZero (f : Float64) : Bool :=
  f.exponent.val == 0 && f.mantissa.val == 0

/-- Go's `f < 0`: false for NaN and for both zeros, true for every other
value whose sign bit is set (minus infinity included). -/
def ltZero (f : Float64) : Bool :=
  !f.isNaN && f.sign && !f.isZero

/-- Go's `f >= 0`: false for NaN, true for both zeros and for every value
whose sign bit is clear (plus infinity included). -/
def geZero (f : Float64) : Bool :=
  !f.isNaN && (!f.sign || f.isZero)

/-- The significand of a finite value in units of `2^-1074`: the fraction
itself for a subnormal, `(2^52 + fraction) * 2^(exponent - 1)` for a normal
value. -/
def scaled (f : Float64) : Nat :=
  if f.exponent.val = 0 then f.mantissa.val
  else (4503599627370496 + f.mantissa.val) * 2 ^ (f.exponent.val - 1)

/-- The exact rational value of a finite `float64`; `none` for NaN and the
infinities. -/
def toRat? (f : Float64) : Option ℚ :=
  if f.exponent.val = 2047 then none
  else some ((if f.sign then -1 else 1) * (f.scaled : ℚ) / 2 ^ 1074)

/-- The signed value in units of `2^-1074`.  On the infinities the formula of
`scaled` gives `2^2098`, which lies above every finite significand, so the
order of these integers is the order of the values, infinities included. -/
def toInt (f : Float64) : Int :=
  if f.sign then -(f.scaled : Int) else (f.scaled : Int)

/-- Go's `a < b`: false when either side is NaN, otherwise the order of the
values. -/
def lt (a b : Float64) : Bool :=
  !a.isNaN && !b.isNaN && decide (a.toInt < b.toInt)

/-- Go's unary minus `-f`: the sign bit flipped. -/
def neg (f : Float64) : Float64 :=
  { f with sign := !f.sign }

/-- The number of binary digits of `m`, counted with `fuel` halvings. -/
def bitLengthAux : Nat → Nat → Nat
  | 0, _ => 0
  | fuel + 1, m => if m = 0 then 0 else bitLengthAux fuel (m / 2) + 1

/-- The number of binary digits of `m`, for `m < 2^2100`; the sum of two finite
values has a magnitude below `2^2099` units. -/
def bitLength (m : Nat) : Nat := bitLengthAux 2100 m

/-- The `float64` nearest to `m` units of `2^-1074` with the given sign, ties to
the even significand (the rounding of Go's arithmetic).  Below `2^53` units
the value is exact: a subnormal, or a normal value with exponent field 1.
Above, the 53 leading digits are kept and rounded on the digits dropped; a
carry out of the significand moves to the next exponent, and an exponent
field of 2047 or more is an overflow to infinity. -/
def ofScaled (sign : Bool) (m : Nat) : Float64 :=
  if m < 4503599627370496 then ⟨sign, 0, Fin.ofNat m⟩
  else if m < 9007199254740992 then ⟨sign, 1, Fin.ofNat (m - 4503599627370496)⟩
  else
    let shift := bitLength m - 53
    let k := m / 2 ^ shift
    let rest := m % 2 ^ shift
    let half := 2 ^ (shift - 1)
    let up : Bool := decide (half < rest) || (rest == half && k % 2 == 1)
    let k1 := if up then k + 1 else k
    let e := if k1 = 9007199254740992 then shift + 2 else shift + 1
    let k2 := if k1 = 9007199254740992 then 4503599627370496 else k1
    if 2047 ≤ e then ⟨sign, 2047, 0⟩
    else ⟨sign, Fin.ofNat e, Fin.ofNat (k2 - 4503599627370496)⟩

/-- A quiet NaN (bits `0x7FF8000000000000`). -/
def nan : Float64 := ⟨false, 2047, 2251799813685248⟩

/-- Go's `a + b` on `float64`.  A NaN operand and the sum of opposite
infinities give a NaN (which NaN is left open by the language; all NaNs
compare alike); an infinity absorbs a finite operand; an exact sum of zero is
`+0` unless both operands are `-0`; every other sum is the exact sum rounded
to the nearest `float64`. -/
def add (a b : Float64) : Float64 :=
  if a.isNaN || b.isNaN then nan
  else if a.isInf then (if b.isInf && a.sign != b.sign then nan else a)
  else if b.isInf then b
  else if a.toInt + b.toInt = 0 then ⟨a.sign && b.sign, 0, 0⟩
  else ofScaled (decide (a.toInt + b.toInt < 0)) (a.toInt + b.toInt).natAbs

/-- The value `0.0`. -/
def zero : Float64 := ⟨false, 0, 0⟩

/-- The value `10.0` (bits `0x4024000000000000`). -/
def ten : Float64 := ⟨false, 1026, 1125899906842624⟩

/-- The value `30.0` (bits `0x403E000000000000`). -/
def thirty : Float64 := ⟨false, 1027, 3940649673949184⟩

/-- The value `50.0` (bits `0x4049000000000000`). -/
def fifty : Float64 := ⟨false, 1028, 2533274790395904⟩

/-- The value `-90.0` (bits `0xC056800000000000`). -/
def negNinety : Float64 := ⟨true, 1029, 1829587348619264⟩

/-- The value `-100.0` (bits `0xC059000000000000`). -/
def negHundred : Float64 := ⟨true, 1029, 2533274790395904⟩

/-- The value `-1.0` (bits `0xBFF0000000000000`). -/
def negOne : Float64 := ⟨true, 1023, 0⟩

/-- The value `100.0` (bits `0x4059000000000000`). -/
def hundred : Float64 := ⟨false, 1029, 2533274790395904⟩

end Float64

/-! ## `pkg/domain/account.go` -/

/-- The `Account` struct. -/
structure Account where
  AccountId : String
  CustomerId : String
  OpeningDate : String
  AccountType : String
  Amount : Float64
  Status : String
  deriving DecidableEq, Repr

/-- `NewAccount(customerId, accountType, amount)`.  The constant
`lib.DbTSLayout` is declared in a package outside the embedded files, so its
value is the parameter `DbTSLayout`.  `AccountId` is not mentioned in the
composite literal and therefore holds Go's zero value for `string`. -/
def NewAccount (DbTSLayout : String) (customerId accountType : String)
    (amount : Float64) : Account :=
  { AccountId := ""
    CustomerId := customerId
    OpeningDate := DbTSLayout
    AccountType := accountType
    Amount := amount
    Status := "1" }

/-- The `dto.AccountResponse` struct.  Its declaration lies in a package
outside the embedded files; the source shows that it has a string field
`AccountId`.  Whatever further fields it may declare are collected in `rest`,
of the parameter type `ρ`. -/
structure AccountResponse (ρ : Type) where
  AccountId : String
  rest : ρ
  deriving DecidableEq, Repr

/-- `(a Account) ToNewAccountResponseDto()`.  The composite literal sets
`AccountId` only, so every other field of the response holds Go's zero value,
here `default`. -/
def Account.ToNewAccountResponseDto (ρ : Type) [Inhabited ρ] (a : Account) :
    AccountResponse ρ :=
  { AccountId := a.AccountId, rest := default }

/-! ## Errors and the outcome of `NewAccount` -/

/-- Modelled from the spec: the five error kinds of the error taxonomy
(section 4.1).  The repository's `errs` package is not among the embedded
files. -/
inductive ErrorKind where
  | ValidationError
  | NotFoundError
  | UnauthorizedError
  | ConflictError
  | StorageError
  deriving DecidableEq, Repr

/-- Modelled from the spec: an error value carries its kind and a
human-readable message (section 4.1); this stands for `errs.AppError`, which
is not among the embedded files. -/
structure AppError where
  kind : ErrorKind
  message : String
  deriving DecidableEq, Repr

/-- What a caller of `NewAccount` receives.  The Go signature declares the
single result `Account` and no error result, and the body is one `return` of
a composite literal, so every call yields an account. -/
def NewAccountResult (DbTSLayout : String) (customerId accountType : String)
    (amount : Float64) : Except AppError Account :=
  Except.ok (NewAccount DbTSLayout customerId accountType amount)

/-! ## Transaction engine -/

/-- Modelled from the spec: `Apply(currentAccount, requestedAmount)` of
section 4.3, whose implementation is not among the embedded files.  The
account is the `Account` struct of `account.go`: its balance is the `float64`
field `Amount`, and Active is the status `"1"` that `NewAccount` sets.  The
requested amount is a signed `float64`: positive is a deposit, negative a
withdrawal.  The four bullets of the contract are checked in the order the
spec lists them, with Go's `float64` comparisons and addition. -/
def Apply (currentAccount : Account) (requestedAmount : Float64) :
    Except AppError Float64 :=
  if currentAccount.Status ≠ "1" then
    Except.error ⟨ErrorKind.ConflictError, "account not active"⟩
  else if requestedAmount.isZero = true then
    Except.error ⟨ErrorKind.ValidationError, "zero-amount transaction not permitted"⟩
  else if requestedAmount.ltZero = true ∧
      (currentAccount.Amount.add requestedAmount).ltZero = true then
    Except.error ⟨ErrorKind.ConflictError, "insufficient funds"⟩
  else
    Except.ok (currentAccount.Amount.add requestedAmount)

/-- Modelled from the spec: the balance of the account once the call is over
(sections 4.6 and 7): the new balance is persisted when `Apply` succeeds, and
a failed call leaves the balance exactly as it was. -/
def balanceAfter (currentAccount : Account) (requestedAmount : Float64) : Float64 :=
  match Apply currentAccount requestedAmount with
  | Except.ok newBalance => newBalance
  | Except.error _ => currentAccount.Amount

/-! ## `banking/cmd/banking-server/main.go`: the router

The router is built with `github.com/gorilla/mux`.  The part of that library
the wiring in `main` relies on is embedded as data (routers, routes,
middlewares) and a matching function.  Handlers are symbolic: a route's
handler is named by the Go expression registered for it, and a middleware
applied to a handler is a `wrap` node, so the value `Match` returns shows
which functions a request runs through and in which order. -/

/-- An HTTP request, as far as routing looks at it. -/
structure Request where
  method : String
  path : String
  deriving DecidableEq, Repr

/-- The handler that serves a request: a registered handler function, or a
middleware wrapped around the next handler. -/
inductive Handler where
  | fn (name : String)
  | wrap (middleware : String) (next : Handler)
  deriving DecidableEq, Repr

/-- The functions a handler runs through, outermost first, when every
middleware calls the handler it wraps. -/
def Handler.chain : Handler → List String
  | Handler.fn name => [name]
  | Handler.wrap middleware next => middleware :: next.chain

/-- The registered handler function at the core of a handler. -/
def Handler.target : Handler → String
  | Handler.fn name => name
  | Handler.wrap _ next => next.target

/-- One piece of a path template between slashes: literal text, or a
variable with the pattern `[0-9]+`. -/
inductive Segment where
  | lit (text : String)
  | digits
  deriving DecidableEq, Repr

/-- Split a path at every `/`. -/
def splitSlash : List Char → List (List Char)
  | [] => [[]]
  | c :: cs =>
    if c = '/' then [] :: splitSlash cs
    else
      match splitSlash cs with
      | [] => [[c]]
      | s :: ss => (c :: s) :: ss

/-- Does one piece of the path match one piece of the template?  `[0-9]+`
is one or more ASCII digits. -/
def Segment.accepts : Segment → List Char → Bool
  | Segment.lit text, cs => cs == text.data
  | Segment.digits, cs => !cs.isEmpty && cs.all Char.isDigit

/-- A template matches a path when they have the same number of pieces and
each piece matches (mux anchors the compiled pattern at both ends). -/
def matchTemplate : List Segment → List (List Char) → Bool
  | [], [] => true
  | seg :: segs, cs :: css => seg.accepts cs && matchTemplate segs css
  | _, _ => false

/-- A route registered with `HandleFunc(template, handler).Name(name)`. -/
structure Route where
  template : List Segment
  handler : String
  name : String
  deriving DecidableEq, Repr

/-- A subrouter made by `r.Methods(method).Subrouter()`, with the routes and
middlewares registered on it. -/
structure Subrouter where
  method : String
  routes : List Route
  middlewares : List String
  deriving DecidableEq, Repr

/-- The root router: its method subrouters in registration order and the
middlewares added with `Use`. -/
structure Router where
  subrouters : List Subrouter
  middlewares : List String
  deriving DecidableEq, Repr

/-- Does the route's path template match the request? -/
def Route.Match (rt : Route) (req : Request) : Bool :=
  matchTemplate rt.template (splitSlash req.path.data)

/-- Wrap a matched handler in a router's middlewares: mux walks the list
from the last to the first, so the middleware added first ends up outermost
and runs first. -/
def applyMiddlewares (middlewares : List String) (h : Handler) : Handler :=
  middlewares.foldr Handler.wrap h

/-- Matching inside a method subrouter: the request's method must be the
subrouter's, the first route whose template matches supplies the handler, and
the subrouter's own middlewares are wrapped around it. -/
def Subrouter.Match (s : Subrouter) (req : Request) : Option Handler :=
  if req.method = s.method then
    match s.routes.find? (fun rt => rt.Match req) with
    | some rt => some (applyMiddlewares s.middlewares (Handler.fn rt.handler))
    | none => none
  else none

/-- Matching at the root: the first subrouter that matches supplies the
handler, and the root's middlewares are wrapped around it once the match is
found.  `none` means no registered handler serves the request. -/
def Router.Match (r : Router) (req : Request) : Option Handler :=
  match r.subrouters.findSome? (fun s => s.Match req) with
  | some h => some (applyMiddlewares r.middlewares h)
  | none => none

/-- The template `/customers/`. -/
def customersPath : List Segment :=
  [Segment.lit "", Segment.lit "customers", Segment.lit ""]

/-- The template `/customers/{customer_id:[0-9]+}`. -/
def customerPath : List Segment :=
  [Segment.lit "", Segment.lit "customers", Segment.digits]

/-- The template `/customers/{customer_id:[0-9]+}/account`. -/
def accountPath : List Segment :=
  [Segment.lit "", Segment.lit "customers", Segment.digits, Segment.lit "account"]

/-- The template
`/customers/{customer_id:[0-9]+}/account/{account_id:[0-9]+}`. -/
def transactionPath : List Segment :=
  [Segment.lit "", Segment.lit "customers", Segment.digits, Segment.lit "account",
    Segment.digits]

/-- The subrouter `getRtr := r.Methods(http.MethodGet).Subrouter()` with its
two routes. -/
def getRtr : Subrouter :=
  { method := "GET"
    routes :=
      [⟨customersPath, "ch.GetAllCustomers", "GetAllCustomers"⟩,
       ⟨customerPath, "ch.GetCustomerByID", "GetCustomer"⟩]
    middlewares := [] }

/-- The subrouter `postRtr := r.Methods(http.MethodPost).Subrouter()` with
its two routes. -/
def postRtr : Subrouter :=
  { method := "POST"
    routes :=
      [⟨accountPath, "ah.NewAccount", "NewAccount"⟩,
       ⟨transactionPath, "ah.MakeTransaction", "NewTransaction"⟩]
    middlewares := [] }

/-- The name under which the middleware `am.AuthorizationHandler()` appears
in a handler. -/
def authorization : String := "am.AuthorizationHandler()"

/-- The router `r` that `main` hands to the HTTP server: both subrouters, and
the authorization middleware installed with `r.Use`. -/
def server : Router :=
  { subrouters := [getRtr, postRtr], middlewares := [authorization] }

/-! ## Auxiliary lemmas -/

/-- A natural number over a power of two is never one tenth. -/
theorem dyadic_ne_tenth (n k : ℕ) : (n : ℚ) / 2 ^ k ≠ 1 / 10 := by
  intro h
  have hpow : ((2 : ℚ) ^ k) ≠ 0 := pow_ne_zero _ (by norm_num)
  rw [div_eq_div_iff hpow (by norm_num)] at h
  have hnat : n * 10 = 1 * 2 ^ k := by exact_mod_cast h
  have hdvd : 5 ∣ 2 ^ k := ⟨n * 2, by omega⟩
  have h52 : 5 ∣ 2 := Nat.Prime.dvd_of_dvd_pow (by norm_num) hdvd
  omega

/-- No `float64` has the exact value one tenth. -/
theorem Float64.toRat?_ne_tenth (f : Float64) : f.toRat? ≠ some (1 / 10) := by
  unfold Float64.toRat?
  split
  · simp
  · intro h
    have hq := Option.some.inj h
    cases hs : f.sign
    · rw [hs] at hq
      simp only [Bool.false_eq_true, if_false, one_mul] at hq
      exact dyadic_ne_tenth _ _ hq
    · rw [hs] at hq
      simp only [if_true] at hq
      have hle : (-1 : ℚ) * (f.scaled : ℚ) / 2 ^ 1074 ≤ 0 := by
        apply div_nonpos_of_nonpos_of_nonneg
        · have : (0 : ℚ) ≤ (f.scaled : ℚ) := Nat.cast_nonneg _
          linarith
        · positivity
      rw [hq] at hle
      norm_num at hle

/-- Every finite `float64` is an integer multiple of `2^-1074`. -/
theorem Float64.toRat?_dyadic (f : Float64) (q : ℚ) (h : f.toRat? = some q) :
    ∃ n : ℤ, q = (n : ℚ) / 2 ^ 1074 := by
  unfold Float64.toRat? at h
  split at h
  · simp at h
  · have hq := Option.some.inj h
    cases hs : f.sign
    · refine ⟨(f.scaled : ℤ), ?_⟩
      rw [← hq, hs]
      simp
    · refine ⟨-(f.scaled : ℤ), ?_⟩
      rw [← hq, hs]
      simp

/-- The significand of a value is zero exactly for the two zeros. -/
theorem Float64.scaled_eq_zero_iff (f : Float64) : f.scaled = 0 ↔ f.isZero = true := by
  unfold Float64.scaled Float64.isZero
  by_cases he : f.exponent.val = 0
  · simp [he]
  · have hpos : 0 < (4503599627370496 + f.mantissa.val) * 2 ^ (f.exponent.val - 1) :=
      Nat.mul_pos (by omega) (Nat.pos_pow_of_pos _ (by norm_num))
    simp only [he, if_false, beq_iff_eq, Bool.and_eq_true, false_and, iff_false]
    omega

/-- For a finite value, the comparison `f < 0` on the encoding agrees with the
comparison of the exact values. -/
theorem Float64.ltZero_iff_toRat_neg (f : Float64) (q : ℚ) (h : f.toRat? = some q) :
    f.ltZero = true ↔ q < 0 := by
  have he : f.exponent.val ≠ 2047 := by
    intro he
    simp [Float64.toRat?, he] at h
  have hnan : f.isNaN = false := by simp [Float64.isNaN, he]
  have hq : q = (if f.sign then -1 else 1) * (f.scaled : ℚ) / 2 ^ 1074 := by
    simp only [Float64.toRat?, he, if_false] at h
    exact (Option.some.inj h).symm
  have hpow : (0 : ℚ) < 2 ^ 1074 := by positivity
  have hz := Float64.scaled_eq_zero_iff f
  have hs0 : (0 : ℚ) ≤ (f.scaled : ℚ) := Nat.cast_nonneg _
  cases hs : f.sign
  · rw [hs] at hq
    simp only [Bool.false_eq_true, if_false, one_mul] at hq
    have hnn : 0 ≤ q := by
      rw [hq]
      exact div_nonneg hs0 hpow.le
    simp only [Float64.ltZero, hs, hnan]
    constructor
    · intro hfalse
      simp at hfalse
    · intro hneg
      linarith
  · rw [hs] at hq
    simp only [if_true] at hq
    by_cases hzero : f.isZero = true
    · have hsc : f.scaled = 0 := hz.mpr hzero
      have hq0 : q = 0 := by
        rw [hq, hsc]
        simp
      simp [Float64.ltZero, hs, hnan, hzero, hq0]
    · have hsc : f.scaled ≠ 0 := fun h0 => hzero (hz.mp h0)
      have hscpos : (0 : ℚ) < (f.scaled : ℚ) := by
        exact_mod_cast Nat.pos_of_ne_zero hsc
      have hqneg : q < 0 := by
        rw [hq]
        apply div_neg_of_neg_of_pos _ hpow
        linarith
      have hzf : f.isZero = false := by simpa using hzero
      simp [Float64.ltZero, hs, hnan, hzf, hqneg]

/-- A handler that a subrouter returns is one of its routes' handlers, wrapped
in the subrouter's middlewares. -/
theorem Subrouter.Match_some_route (s : Subrouter) (req : Request) (h : Handler)
    (hm : s.Match req = some h) :
    ∃ rt ∈ s.routes, rt.Match req = true ∧ req.method = s.method ∧
      h = applyMiddlewares s.middlewares (Handler.fn rt.handler) := by
  unfold Subrouter.Match at hm
  split at hm
  next hmeth =>
    split at hm
    next rt hfind =>
      refine ⟨rt, List.mem_of_find?_eq_some hfind, ?_, hmeth, ?_⟩
      · simpa using List.find?_some hfind
      · exact (Option.some.inj hm).symm
    next => simp at hm
  next => simp at hm

/-- A handler that the root router returns is a route's handler wrapped first
in its subrouter's middlewares and then in the root's. -/
theorem Router.Match_some_subrouter (r : Router) (req : Request) (h : Handler)
    (hm : r.Match req = some h) :
    ∃ s ∈ r.subrouters, ∃ rt ∈ s.routes, rt.Match req = true ∧ req.method = s.method ∧
      h = applyMiddlewares r.middlewares
            (applyMiddlewares s.middlewares (Handler.fn rt.handler)) := by
  unfold Router.Match at hm
  split at hm
  next h0 hfind =>
    obtain ⟨s, hs, hsm⟩ := List.exists_of_findSome?_eq_some hfind
    obtain ⟨rt, hrt, hmatch, hmeth, hh⟩ := Subrouter.Match_some_route s req h0 hsm
    refine ⟨s, hs, rt, hrt, hmatch, hmeth, ?_⟩
    rw [← hh]
    exact (Option.some.inj hm).symm
  next => simp at hm

/-- Rounding keeps the sign it is given. -/
theorem Float64.ofScaled_sign (s : Bool) (m : Nat) : (Float64.ofScaled s m).sign = s := by
  unfold Float64.ofScaled
  dsimp only
  split_ifs <;> rfl

/-- Rounding never produces a NaN. -/
theorem Float64.ofScaled_isNaN (s : Bool) (m : Nat) : (Float64.ofScaled s m).isNaN = false := by
  unfold Float64.ofScaled Float64.isNaN
  dsimp only
  split_ifs with h1 h2 h3 h4 <;> simp [Fin.ofNat] <;> omega

/-- Rounding a magnitude that is not zero does not produce a zero. -/
theorem Float64.ofScaled_isZero (s : Bool) (m : Nat) (hm : 0 < m) :
    (Float64.ofScaled s m).isZero = false := by
  unfold Float64.ofScaled Float64.isZero
  dsimp only
  split_ifs with h1 h2 h3 h4 <;> simp [Fin.ofNat] <;> omega

/-- The significand that `scaled` assigns to an infinity is at least the
significand of any value that is not a NaN. -/
theorem Float64.scaled_le_scaled_inf (f g : Float64) (hf : f.isNaN = false)
    (hg : g.isInf = true) : f.scaled ≤ g.scaled := by
  have hm : f.mantissa.val < 4503599627370496 := f.mantissa.isLt
  have he : f.exponent.val < 2048 := f.exponent.isLt
  simp only [Float64.isInf, Bool.and_eq_true, beq_iff_eq] at hg
  obtain ⟨hge, hgm⟩ := hg
  have hgs : g.scaled = 4503599627370496 * 2 ^ (g.exponent.val - 1) := by
    unfold Float64.scaled
    rw [if_neg (by omega), hgm, Nat.add_zero]
  rw [hgs]
  unfold Float64.scaled
  split_ifs with h0
  · have hone : 1 ≤ 2 ^ (g.exponent.val - 1) := Nat.one_le_two_pow
    generalize 2 ^ (g.exponent.val - 1) = P at hone
    omega
  · by_cases h47 : f.exponent.val = 2047
    · have hz : f.mantissa.val = 0 := by
        simpa [Float64.isNaN, h47] using hf
      have hsub : f.exponent.val - 1 = g.exponent.val - 1 := by omega
      rw [hsub, hz, Nat.add_zero]
    · have hsub : g.exponent.val - 1 = (f.exponent.val - 1 + 1) + (2046 - f.exponent.val) := by
        omega
      have hone : 1 ≤ 2 ^ (2046 - f.exponent.val) := Nat.one_le_two_pow
      rw [hsub, Nat.pow_add, Nat.pow_succ]
      generalize 2 ^ (2046 - f.exponent.val) = Q at hone
      generalize 2 ^ (f.exponent.val - 1) = P
      calc (4503599627370496 + f.mantissa.val) * P
          ≤ (4503599627370496 * 2) * P := Nat.mul_le_mul_right _ (by omega)
        _ = 4503599627370496 * (P * 2) * 1 := by ring
        _ ≤ 4503599627370496 * (P * 2) * Q := Nat.mul_le_mul_left _ hone
        _ = 4503599627370496 * (P * 2 * Q) := by ring

/-- The negation of a value has the opposite signed significand. -/
theorem Float64.toInt_neg (f : Float64) : f.neg.toInt = -f.toInt := by
  unfold Float64.toInt Float64.neg Float64.scaled
  cases hs : f.sign <;> simp

/-- Negation does not change whether a value is a NaN. -/
theorem Float64.isNaN_neg (f : Float64) : f.neg.isNaN = f.isNaN := rfl

/-- Negation does not change whether a value is an infinity. -/
theorem Float64.isInf_neg (f : Float64) : f.neg.isInf = f.isInf := rfl

/-- Negation does not change whether a value is a zero. -/
theorem Float64.isZero_neg (f : Float64) : f.neg.isZero = f.isZero := rfl

/-- What `W > 0` says about the encoding of `W`: it is no NaN, its sign bit is
clear and its significand is not zero. -/
theorem Float64.pos_of_lt_zero (W : Float64) (hW : Float64.lt Float64.zero W = true) :
    W.isNaN = false ∧ W.sign = false ∧ 0 < W.scaled ∧ W.isZero = false := by
  unfold Float64.lt at hW
  simp only [Bool.and_eq_true, Bool.not_eq_true', decide_eq_true_eq] at hW
  obtain ⟨⟨-, hnan⟩, hlt⟩ := hW
  have h0 : Float64.zero.toInt = 0 := by
    simp [Float64.toInt, Float64.zero, Float64.scaled]
  rw [h0] at hlt
  have hsign : W.sign = false := by
    cases hs : W.sign
    · rfl
    · simp only [Float64.toInt, hs, if_true] at hlt
      omega
  have hpos : 0 < W.scaled := by
    simp only [Float64.toInt, hsign, Bool.false_eq_true, if_false] at hlt
    omega
  refine ⟨hnan, hsign, hpos, ?_⟩
  cases hz : W.isZero
  · rfl
  · have := (Float64.scaled_eq_zero_iff W).mpr hz
    omega

/-- A withdrawal that exceeds the balance: for `W > 0` and `W > B`, the sum
`B + (-W)` is below zero. -/
theorem Float64.add_neg_ltZero (B W : Float64)
    (hW : Float64.lt Float64.zero W = true) (hover : Float64.lt B W = true) :
    (B.add W.neg).ltZero = true := by
  obtain ⟨hWnan, hWsign, hWpos, -⟩ := Float64.pos_of_lt_zero W hW
  unfold Float64.lt at hover
  simp only [Bool.and_eq_true, Bool.not_eq_true', decide_eq_true_eq] at hover
  obtain ⟨⟨hBnan, -⟩, hlt⟩ := hover
  have hWint : W.toInt = (W.scaled : Int) := by
    simp [Float64.toInt, hWsign]
  have hnegsign : W.neg.sign = true := by
    simp [Float64.neg, hWsign]
  unfold Float64.add
  rw [Float64.isNaN_neg, Float64.isInf_neg, Float64.toInt_neg, hBnan, hWnan, hnegsign]
  simp only [Bool.or_self, Bool.false_eq_true, if_false]
  by_cases hBinf : B.isInf = true
  · have hBsign : B.sign = true := by
      cases hs : B.sign
      · exfalso
        have hle := Float64.scaled_le_scaled_inf W B hWnan hBinf
        rw [hWint] at hlt
        simp only [Float64.toInt, hs, Bool.false_eq_true, if_false] at hlt
        omega
      · rfl
    have hBzero : B.isZero = false := by
      simp only [Float64.isInf, Bool.and_eq_true, beq_iff_eq] at hBinf
      simp [Float64.isZero, hBinf.1]
    simp [hBinf, hBsign, Float64.ltZero, hBnan, hBzero]
  · have hWnegzero : W.neg.isZero = false := by
      rw [Float64.isZero_neg]
      exact (Float64.pos_of_lt_zero W hW).2.2.2
    rw [if_neg hBinf]
    by_cases hWinf : W.isInf = true
    · rw [if_pos hWinf]
      simp [Float64.ltZero, Float64.isNaN_neg, hWnan, hnegsign, hWnegzero]
    · rw [if_neg hWinf]
      have hne : ¬ (B.toInt + -W.toInt = 0) := by omega
      have hneg : B.toInt + -W.toInt < 0 := by omega
      rw [if_neg hne]
      have hpos : 0 < (B.toInt + -W.toInt).natAbs := by omega
      simp [Float64.ltZero, Float64.ofScaled_isNaN, Float64.ofScaled_sign,
        Float64.ofScaled_isZero _ _ hpos, hneg]

/-- A sum that starts from a balance `>= 0` and adds an amount that is neither
below zero nor zero is not below zero. -/
theorem Float64.add_not_ltZero (B r : Float64) (hB : B.geZero = true)
    (hr : r.ltZero = false) (hrz : r.isZero = false) :
    (B.add r).ltZero = false := by
  unfold Float64.add
  by_cases hrnan : r.isNaN = true
  · simp only [hrnan, Bool.or_true, if_true]
    decide
  · have hrnan2 : r.isNaN = false := by simpa using hrnan
    have hrsign : r.sign = false := by
      simp only [Float64.ltZero, hrnan2, hrz, Bool.not_false, Bool.true_and, Bool.and_true]
        at hr
      exact hr
    simp only [Float64.geZero, Bool.and_eq_true, Bool.not_eq_true', Bool.or_eq_true] at hB
    obtain ⟨hBnan, hBs⟩ := hB
    simp only [hBnan, hrnan2, Bool.or_self, Bool.false_eq_true, if_false]
    have hrint : 0 ≤ r.toInt := by
      simp only [Float64.toInt, hrsign, Bool.false_eq_true, if_false]
      omega
    have hBint : 0 ≤ B.toInt := by
      rcases hBs with hs | hz
      · simp only [Float64.toInt, hs, Bool.false_eq_true, if_false]
        omega
      · have := (Float64.scaled_eq_zero_iff B).mpr hz
        simp only [Float64.toInt, this]
        split_ifs <;> simp
    by_cases hBinf : B.isInf = true
    · have hBsign : B.sign = false := by
        rcases hBs with hs | hz
        · exact hs
        · simp only [Float64.isInf, Bool.and_eq_true, beq_iff_eq] at hBinf
          simp [Float64.isZero, hBinf.1] at hz
      rw [if_pos hBinf, hBsign, hrsign]
      simp [Float64.ltZero, hBsign]
    · rw [if_neg hBinf]
      by_cases hrinf : r.isInf = true
      · rw [if_pos hrinf]
        simp [Float64.ltZero, hrsign]
      · rw [if_neg hrinf]
        by_cases h0 : B.toInt + r.toInt = 0
        · rw [if_pos h0]
          simp [Float64.ltZero, Float64.isZero]
        · rw [if_neg h0]
          have hnn : ¬ (B.toInt + r.toInt < 0) := by omega
          simp [Float64.ltZero, Float64.ofScaled_sign, hnn]

/-- The test `f < 0` on the encoding is Go's comparison of `f` with `0.0`. -/
theorem Float64.ltZero_eq_lt_zero (f : Float64) : f.ltZero = f.lt Float64.zero := by
  have h0 : Float64.zero.toInt = 0 := by
    simp [Float64.toInt, Float64.zero, Float64.scaled]
  have hz0 : Float64.zero.isNaN = false := by decide
  have hz := Float64.scaled_eq_zero_iff f
  unfold Float64.ltZero Float64.lt
  rw [h0, hz0]
  cases hn : f.isNaN
  · cases hs : f.sign
    · have : ¬ ((f.scaled : Int) < 0) := by omega
      simp [Float64.toInt, hs, this]
    · cases hzero : f.isZero
      · have hne : f.scaled ≠ 0 := fun h => by
          have := hz.mp h
          rw [hzero] at this
          exact Bool.noConfusion this
        have : -(f.scaled : Int) < 0 := by omega
        simp [Float64.toInt, hs, this]
      · have he : f.scaled = 0 := hz.mpr hzero
        simp [Float64.toInt, hs, he]
  · simp

/-- A new balance that `Apply` returns for an account whose balance is `>= 0`
is not below zero. -/
theorem Apply_ok_not_negative (currentAccount : Account)
    (requestedAmount newBalance : Float64)
    (hB : currentAccount.Amount.geZero = true)
    (hok : Apply currentAccount requestedAmount = Except.ok newBalance) :
    newBalance.ltZero = false := by
  unfold Apply at hok
  split at hok
  · exact Except.noConfusion hok
  · split at hok
    · exact Except.noConfusion hok
    · next hnz =>
      split at hok
      · exact Except.noConfusion hok
      · next hnot =>
        have hval : currentAccount.Amount.add requestedAmount = newBalance :=
          Except.ok.inj hok
        rw [← hval]
        cases hr : requestedAmount.ltZero
        · have hrz : requestedAmount.isZero = false := by simpa using hnz
          exact Float64.add_not_ltZero _ _ hB hr hrz
        · cases hsum : (currentAccount.Amount.add requestedAmount).ltZero
          · rfl
          · exact absurd ⟨hr, hsum⟩ hnot

/-- The handlers the server can return: each is one registered handler function
wrapped once in the authorization middleware, and the request's method is the
one of the subrouter the route was registered on. -/
theorem server_Match_cases (req : Request) (h : Handler)
    (hm : server.Match req = some h) :
    (req.method = "GET" ∧
      (h = Handler.wrap authorization (Handler.fn "ch.GetAllCustomers") ∨
       h = Handler.wrap authorization (Handler.fn "ch.GetCustomerByID"))) ∨
    (req.method = "POST" ∧
      (h = Handler.wrap authorization (Handler.fn "ah.NewAccount") ∨
       h = Handler.wrap authorization (Handler.fn "ah.MakeTransaction"))) := by
  obtain ⟨s, hs, rt, hrt, -, hmeth, hh⟩ := Router.Match_some_subrouter server req h hm
  simp only [server, List.mem_cons, List.mem_singleton, List.not_mem_nil, or_false] at hs
  rcases hs with rfl | rfl
  · left
    simp only [getRtr, List.mem_cons, List.mem_singleton, List.not_mem_nil, or_false] at hrt
    refine ⟨hmeth, ?_⟩
    rcases hrt with rfl | rfl
    · left; rw [hh]; rfl
    · right; rw [hh]; rfl
  · right
    simp only [postRtr, List.mem_cons, List.mem_singleton, List.not_mem_nil, or_false] at hrt
    refine ⟨hmeth, ?_⟩
    rcases hrt with rfl | rfl
    · left; rw [hh]; rfl
    · right; rw [hh]; rfl

/-! ## The account constructor -/

/-- C1: for every customer id, account type and opening amount, the account
`NewAccount` returns has status `"1"` (Active) and its `Amount` is the opening
amount, bit for bit. -/
theorem NewAccount_active_with_opening_amount (DbTSLayout customerId accountType : String)
    (openingAmount : Float64) :
    (NewAccount DbTSLayout customerId accountType openingAmount).Status = "1" ∧
    (NewAccount DbTSLayout customerId accountType openingAmount).Amount = openingAmount :=
  ⟨rfl, rfl⟩

/-- C2, as stated, fails: `-1.0` is below zero, and `NewAccount` called with it
does not fail but returns an active account holding `-1.0`. -/
theorem NewAccount_negative_amount_returns_account :
    Float64.ltZero Float64.negOne = true ∧
    NewAccountResult "2006-01-02 15:04:05" "2000" "saving" Float64.negOne =
      Except.ok
        { AccountId := ""
          CustomerId := "2000"
          OpeningDate := "2006-01-02 15:04:05"
          AccountType := "saving"
          Amount := Float64.negOne
          Status := "1" } :=
  ⟨by decide, rfl⟩

/-- C2, amended: `NewAccount` validates nothing and never fails.  For every
customer id, account type (any string) and opening amount (any `float64`,
negative ones included) the call yields an account that carries the account
type and the amount unchanged, and it yields no error. -/
theorem NewAccount_never_fails (DbTSLayout customerId accountType : String)
    (openingAmount : Float64) :
    (∃ acct : Account,
      NewAccountResult DbTSLayout customerId accountType openingAmount = Except.ok acct ∧
      acct.AccountType = accountType ∧ acct.Amount = openingAmount) ∧
    ∀ e : AppError,
      NewAccountResult DbTSLayout customerId accountType openingAmount ≠ Except.error e := by
  refine ⟨⟨NewAccount DbTSLayout customerId accountType openingAmount, rfl, rfl, rfl⟩, ?_⟩
  intro e h
  simp [NewAccountResult] at h

/-- C3, as stated, fails: the account `NewAccount` returns for the amount `-1.0`
is Active (status `"1"`) and its `Amount` is below zero, not `>= 0`. -/
theorem NewAccount_active_with_negative_balance :
    (NewAccount "2006-01-02 15:04:05" "2000" "saving" Float64.negOne).Status = "1" ∧
    (NewAccount "2006-01-02 15:04:05" "2000" "saving" Float64.negOne).Amount.geZero = false ∧
    (NewAccount "2006-01-02 15:04:05" "2000" "saving" Float64.negOne).Amount.ltZero = true := by
  decide

/-- C3, amended: the account `NewAccount` returns is always Active and its
`Amount` equals the amount argument, so its `Amount` is `>= 0` exactly when the
amount passed in is `>= 0` (and below zero exactly when that one is); the
constructor itself does not keep negative amounts out. -/
theorem NewAccount_balance_nonneg_iff (DbTSLayout customerId accountType : String)
    (amount : Float64) :
    (NewAccount DbTSLayout customerId accountType amount).Status = "1" ∧
    (NewAccount DbTSLayout customerId accountType amount).Amount = amount ∧
    ((NewAccount DbTSLayout customerId accountType amount).Amount.geZero = true ↔
      amount.geZero = true) ∧
    ((NewAccount DbTSLayout customerId accountType amount).Amount.ltZero = true ↔
      amount.ltZero = true) :=
  ⟨rfl, rfl, Iff.rfl, Iff.rfl⟩

/-- C8: the account `NewAccount` returns has the customer id and the account
type it was given, copied verbatim, and an empty account id. -/
theorem NewAccount_copies_owner_and_type (DbTSLayout customerId accountType : String)
    (amount : Float64) :
    (NewAccount DbTSLayout customerId accountType amount).CustomerId = customerId ∧
    (NewAccount DbTSLayout customerId accountType amount).AccountType = accountType ∧
    (NewAccount DbTSLayout customerId accountType amount).AccountId = "" :=
  ⟨rfl, rfl, rfl⟩

/-- C9: the opening date of the account `NewAccount` returns is the constant
`lib.DbTSLayout` whatever the arguments are, so it is the same for any two
calls, and calls with equal arguments return equal accounts. -/
theorem NewAccount_opening_date_constant (DbTSLayout : String)
    (customerId accountType : String) (amount : Float64)
    (customerId2 accountType2 : String) (amount2 : Float64) :
    (NewAccount DbTSLayout customerId accountType amount).OpeningDate = DbTSLayout ∧
    (NewAccount DbTSLayout customerId accountType amount).OpeningDate =
      (NewAccount DbTSLayout customerId2 accountType2 amount2).OpeningDate ∧
    (customerId = customerId2 → accountType = accountType2 → amount = amount2 →
      NewAccount DbTSLayout customerId accountType amount =
        NewAccount DbTSLayout customerId2 accountType2 amount2) := by
  refine ⟨rfl, rfl, ?_⟩
  intro h1 h2 h3
  rw [h1, h2, h3]

/-- C9 at two calls with the arguments `"2000"`, `"saving"`, `100.0`, and
against a call with other arguments. -/
theorem NewAccount_opening_date_constant_witness :
    (NewAccount "2006-01-02 15:04:05" "2000" "saving" Float64.hundred).OpeningDate =
      "2006-01-02 15:04:05" ∧
    (NewAccount "2006-01-02 15:04:05" "2000" "saving" Float64.hundred).OpeningDate =
      (NewAccount "2006-01-02 15:04:05" "2001" "checking" Float64.negOne).OpeningDate ∧
    NewAccount "2006-01-02 15:04:05" "2000" "saving" Float64.hundred =
      NewAccount "2006-01-02 15:04:05" "2000" "saving" Float64.hundred :=
  ⟨(NewAccount_opening_date_constant "2006-01-02 15:04:05" "2000" "saving" Float64.hundred
      "2001" "checking" Float64.negOne).1,
   (NewAccount_opening_date_constant "2006-01-02 15:04:05" "2000" "saving" Float64.hundred
      "2001" "checking" Float64.negOne).2.1,
   (NewAccount_opening_date_constant "2006-01-02 15:04:05" "2000" "saving" Float64.hundred
      "2000" "saving" Float64.hundred).2.2 rfl rfl rfl⟩

/-! ## The balance representation -/

/-- C6, as stated, fails: the balance is a `float64`.  `NewAccount` stores a NaN
as the balance when it is given one, and no account at all has a balance whose
value is exactly one tenth (ten minor units of a hundred). -/
theorem balance_not_decimal_safe :
    (NewAccount "2006-01-02 15:04:05" "2000" "saving" Float64.nan).Amount.isNaN = true ∧
    ¬ ∃ a : Account, a.Amount.toRat? = some (1 / 10) := by
  refine ⟨by decide, ?_⟩
  rintro ⟨a, ha⟩
  exact Float64.toRat?_ne_tenth a.Amount ha

/-- C6, amended: the balance is held as an IEEE-754 binary64 value.
`NewAccount` stores its `float64` amount unchanged.  When that amount has no
rational value it is a NaN or an infinity; when it has one, it is neither,
the value is an integer multiple of `2^-1074`, and it is never exactly one
tenth. -/
theorem balance_is_binary64 (DbTSLayout customerId accountType : String)
    (amount : Float64) :
    (NewAccount DbTSLayout customerId accountType amount).Amount = amount ∧
    match (NewAccount DbTSLayout customerId accountType amount).Amount.toRat? with
    | none => amount.isNaN = true ∨ amount.isInf = true
    | some q =>
      amount.isNaN = false ∧ amount.isInf = false ∧
      (∃ n : ℤ, q = (n : ℚ) / 2 ^ 1074) ∧ q ≠ 1 / 10 := by
  refine ⟨rfl, ?_⟩
  show match amount.toRat? with
    | none => amount.isNaN = true ∨ amount.isInf = true
    | some q =>
      amount.isNaN = false ∧ amount.isInf = false ∧
      (∃ n : ℤ, q = (n : ℚ) / 2 ^ 1074) ∧ q ≠ 1 / 10
  cases hq : amount.toRat? with
  | none =>
    show amount.isNaN = true ∨ amount.isInf = true
    unfold Float64.toRat? at hq
    unfold Float64.isNaN Float64.isInf
    by_cases he : amount.exponent.val = 2047
    · by_cases hz : amount.mantissa.val = 0 <;> simp [he, hz]
    · simp [he] at hq
  | some q =>
    show amount.isNaN = false ∧ amount.isInf = false ∧
      (∃ n : ℤ, q = (n : ℚ) / 2 ^ 1074) ∧ q ≠ 1 / 10
    have he : amount.exponent.val ≠ 2047 := by
      intro he
      simp [Float64.toRat?, he] at hq
    refine ⟨by simp [Float64.isNaN, he], by simp [Float64.isInf, he],
      Float64.toRat?_dyadic amount q hq, ?_⟩
    intro h10
    rw [h10] at hq
    exact Float64.toRat?_ne_tenth amount hq

/-! ## The account response -/

/-- C4, as stated, fails: whatever fields `dto.AccountResponse` declares, the
account type and the status cannot be read off the response, because two
accounts that differ in both get the same response. -/
theorem response_does_not_carry_type_and_status :
    ¬ ∃ (ρ : Type) (inst : Inhabited ρ) (read : AccountResponse ρ → String × String),
        ∀ a : Account,
          read (@Account.ToNewAccountResponseDto ρ inst a) = (a.AccountType, a.Status) := by
  rintro ⟨ρ, inst, read, hread⟩
  have h1 := hread ⟨"95470", "2000", "2020-08-09 10:20:06", "saving", Float64.hundred, "1"⟩
  have h2 := hread ⟨"95470", "2000", "2020-08-09 10:20:06", "checking", Float64.hundred, "0"⟩
  have h3 : (("saving", "1") : String × String) = ("checking", "0") := by
    rw [← h1, ← h2]
    rfl
  exact absurd h3 (by decide)

/-- C4, amended: the response produced from an account carries the account's id
and nothing else of the account: its `AccountId` is the account's, every other
field holds the zero value, and the response is the one produced from the
account that has the same id and all other fields blank. -/
theorem response_carries_account_id_only (ρ : Type) [Inhabited ρ] (a : Account) :
    (a.ToNewAccountResponseDto ρ).AccountId = a.AccountId ∧
    (a.ToNewAccountResponseDto ρ).rest = default ∧
    a.ToNewAccountResponseDto ρ =
      Account.ToNewAccountResponseDto ρ
        { AccountId := a.AccountId
          CustomerId := ""
          OpeningDate := ""
          AccountType := ""
          Amount := ⟨false, 0, 0⟩
          Status := "" } :=
  ⟨rfl, rfl, rfl⟩

/-- C10: two accounts with the same account id have equal responses, and the
response's `AccountId` is that id; no other field of the account has any
influence. -/
theorem response_depends_on_account_id_only (ρ : Type) [Inhabited ρ] (a b : Account)
    (hid : a.AccountId = b.AccountId) :
    a.ToNewAccountResponseDto ρ = b.ToNewAccountResponseDto ρ ∧
    (a.ToNewAccountResponseDto ρ).AccountId = a.AccountId := by
  refine ⟨?_, rfl⟩
  unfold Account.ToNewAccountResponseDto
  rw [hid]

/-- C10 at two accounts that share the id `"95470"` and differ in every other
field. -/
theorem response_depends_on_account_id_only_witness :
    (⟨"95470", "2000", "2020-08-09 10:20:06", "saving", Float64.hundred, "1"⟩ :
        Account).AccountId =
      (⟨"95470", "2001", "2021-01-01 00:00:00", "checking", Float64.negOne, "0"⟩ :
        Account).AccountId ∧
    Account.ToNewAccountResponseDto Unit
        ⟨"95470", "2000", "2020-08-09 10:20:06", "saving", Float64.hundred, "1"⟩ =
      Account.ToNewAccountResponseDto Unit
        ⟨"95470", "2001", "2021-01-01 00:00:00", "checking", Float64.negOne, "0"⟩ ∧
    (Account.ToNewAccountResponseDto Unit
        ⟨"95470", "2000", "2020-08-09 10:20:06", "saving", Float64.hundred, "1"⟩).AccountId =
      "95470" :=
  ⟨rfl,
   response_depends_on_account_id_only Unit
     ⟨"95470", "2000", "2020-08-09 10:20:06", "saving", Float64.hundred, "1"⟩
     ⟨"95470", "2001", "2021-01-01 00:00:00", "checking", Float64.negOne, "0"⟩ rfl⟩

/-! ## The transaction engine -/

set_option exponentiation.threshold 4096 in
set_option maxRecDepth 100000 in
/-- C5, as stated, fails in two ways.  An account that is not Active, with
balance `30.0`, asked for a withdrawal of `50.0`, is turned away with the
`ConflictError` "account not active", not "insufficient funds".  And an Active
account whose balance is `-100.0` gets the negative new balance `-90.0` from a
deposit of `10.0`. -/
theorem Apply_overdraw_other_outcomes :
    (Float64.lt Float64.zero Float64.fifty = true ∧
      Float64.lt Float64.thirty Float64.fifty = true ∧
      Apply ⟨"95470", "2000", "2020-08-09 10:20:06", "saving", Float64.thirty, "0"⟩
          Float64.fifty.neg =
        Except.error ⟨ErrorKind.ConflictError, "account not active"⟩) ∧
    (Apply ⟨"95470", "2000", "2020-08-09 10:20:06", "saving", Float64.negHundred, "1"⟩
          Float64.ten =
        Except.ok Float64.negNinety ∧
      Float64.negNinety.ltZero = true) :=
  ⟨⟨by decide, by decide, rfl⟩, rfl, by decide⟩

/-- C5, amended: for every account with balance `B` and every withdrawal of
`W > 0` with `W > B` (requested amount `-W`), `Apply` returns a `ConflictError`
and no new balance, so the balance stays `B`; the message is "insufficient
funds" when the account is Active (status `"1"`) and "account not active"
otherwise.  On an account whose balance is `>= 0`, no request at all returns a
new balance below zero. -/
theorem Apply_overdraw_conflict (currentAccount : Account) (W : Float64)
    (hW : Float64.lt Float64.zero W = true)
    (hover : Float64.lt currentAccount.Amount W = true) :
    Apply currentAccount W.neg =
      Except.error ⟨ErrorKind.ConflictError,
        if currentAccount.Status = "1" then "insufficient funds"
        else "account not active"⟩ ∧
    (∀ newBalance : Float64, Apply currentAccount W.neg ≠ Except.ok newBalance) ∧
    balanceAfter currentAccount W.neg = currentAccount.Amount ∧
    (∀ requestedAmount newBalance : Float64, currentAccount.Amount.geZero = true →
      Apply currentAccount requestedAmount = Except.ok newBalance →
      newBalance.ltZero = false) := by
  obtain ⟨hWnan, hWsign, -, hWzero⟩ := Float64.pos_of_lt_zero W hW
  have hsum := Float64.add_neg_ltZero currentAccount.Amount W hW hover
  have hnz : ¬ (W.neg.isZero = true) := by
    rw [Float64.isZero_neg, hWzero]
    exact Bool.noConfusion
  have hneg : W.neg.ltZero = true := by
    unfold Float64.ltZero
    rw [Float64.isNaN_neg, Float64.isZero_neg, hWnan, hWzero]
    simp [Float64.neg, hWsign]
  have happ : Apply currentAccount W.neg =
      Except.error ⟨ErrorKind.ConflictError,
        if currentAccount.Status = "1" then "insufficient funds"
        else "account not active"⟩ := by
    unfold Apply
    by_cases hst : currentAccount.Status = "1"
    · rw [if_neg (not_not.mpr hst), if_neg hnz, if_pos ⟨hneg, hsum⟩, if_pos hst]
    · rw [if_pos hst, if_neg hst]
  refine ⟨happ, ?_, ?_, fun r n => Apply_ok_not_negative currentAccount r n⟩
  · intro n hn
    rw [happ] at hn
    exact Except.noConfusion hn
  · unfold balanceAfter
    rw [happ]

set_option exponentiation.threshold 4096 in
set_option maxRecDepth 100000 in
/-- C5 at an Active account with balance `30.0` and a withdrawal of `50.0`. -/
theorem Apply_overdraw_conflict_witness :
    Apply ⟨"95470", "2000", "2020-08-09 10:20:06", "saving", Float64.thirty, "1"⟩
        Float64.fifty.neg =
      Except.error ⟨ErrorKind.ConflictError, "insufficient funds"⟩ ∧
    balanceAfter ⟨"95470", "2000", "2020-08-09 10:20:06", "saving", Float64.thirty, "1"⟩
        Float64.fifty.neg = Float64.thirty :=
  ⟨(Apply_overdraw_conflict
      ⟨"95470", "2000", "2020-08-09 10:20:06", "saving", Float64.thirty, "1"⟩ Float64.fifty
      (by decide) (by decide)).1,
   (Apply_overdraw_conflict
      ⟨"95470", "2000", "2020-08-09 10:20:06", "saving", Float64.thirty, "1"⟩ Float64.fifty
      (by decide) (by decide)).2.2.1⟩

/-! ## The router -/

/-- C7: every request the server's router serves on a mutating route, that is
every matched POST request and every request handed to `ah.NewAccount` or
`ah.MakeTransaction`, is a POST served by one of these two handlers with the
authorization middleware wrapped around it: the authorization handler runs
first and occurs exactly once before the handler. -/
theorem mutating_routes_behind_authorization (req : Request) (h : Handler)
    (hm : server.Match req = some h)
    (hmut : req.method = "POST" ∨ h.target = "ah.NewAccount" ∨
      h.target = "ah.MakeTransaction") :
    req.method = "POST" ∧
    (h.target = "ah.NewAccount" ∨ h.target = "ah.MakeTransaction") ∧
    h = Handler.wrap authorization (Handler.fn h.target) ∧
    h.chain = [authorization, h.target] ∧
    h.chain.count authorization = 1 := by
  rcases server_Match_cases req h hm with ⟨hget, hh⟩ | ⟨hpost, rfl | rfl⟩
  · exfalso
    rcases hmut with hp | ht
    · rw [hget] at hp
      exact absurd hp (by decide)
    · rcases hh with rfl | rfl
      · exact absurd ht (by decide)
      · exact absurd ht (by decide)
  · exact ⟨hpost, Or.inl rfl, rfl, rfl, by decide⟩
  · exact ⟨hpost, Or.inr rfl, rfl, rfl, by decide⟩

/-- C7 at the requests `POST /customers/2000/account`, which reaches
`ah.NewAccount`, and `POST /customers/2000/account/95470`, which reaches
`ah.MakeTransaction`. -/
theorem mutating_routes_behind_authorization_witness :
    (server.Match ⟨"POST", "/customers/2000/account"⟩ =
        some (Handler.wrap authorization (Handler.fn "ah.NewAccount")) ∧
      (Handler.wrap authorization (Handler.fn "ah.NewAccount")).chain =
        [authorization, "ah.NewAccount"] ∧
      (Handler.wrap authorization (Handler.fn "ah.NewAccount")).chain.count
        authorization = 1) ∧
    (server.Match ⟨"POST", "/customers/2000/account/95470"⟩ =
        some (Handler.wrap authorization (Handler.fn "ah.MakeTransaction")) ∧
      (Handler.wrap authorization (Handler.fn "ah.MakeTransaction")).chain =
        [authorization, "ah.MakeTransaction"] ∧
      (Handler.wrap authorization (Handler.fn "ah.MakeTransaction")).chain.count
        authorization = 1) :=
  ⟨⟨by decide,
    (mutating_routes_behind_authorization ⟨"POST", "/customers/2000/account"⟩
      (Handler.wrap authorization (Handler.fn "ah.NewAccount"))
      (by decide) (Or.inl rfl)).2.2.2⟩,
   ⟨by decide,
    (mutating_routes_behind_authorization ⟨"POST", "/customers/2000/account/95470"⟩
      (Handler.wrap authorization (Handler.fn "ah.MakeTransaction"))
      (by decide) (Or.inr (Or.inr rfl))).2.2.2⟩⟩

end Banking
